import Mathlib

/-!
Verification of the rooster support-operations bot against its
natural-language specification.  Each section embeds one part of the
TypeScript source as executable Lean definitions and proves or refutes
the corresponding spec claims.

Conventions of the embedding:
* TypeScript optional / nullable string fields become `Option String`;
  `none` stands for both `null` and an absent field, matching the fact
  that the source only ever distinguishes them through loose equality
  (`== null`) and truthiness checks.
* JavaScript truthiness on strings is modelled by explicit tests
  against the empty string.
* Network effects are made explicit: a function that performs an HTTP
  call takes the upstream outcome as an argument, and mutable
  process-lifetime caches are passed as association lists.
-/

namespace Pylon

/-- Slack origin-thread reference carried by a ticket (src/pylon.ts `slack`). -/
structure SlackRef where
  channel_id : String
  message_ts : String
  thread_ts : Option String := none
  workspace_id : String := ""
deriving DecidableEq, Repr

/-- Account reference carried by a ticket (src/pylon.ts `account`). -/
structure AccountRef where
  id : String
  name : Option String := none
deriving DecidableEq, Repr

/-- User reference (assignee or requester) carried by a ticket. -/
structure UserRef where
  email : String
  id : String
deriving DecidableEq, Repr

/-- A helpdesk ticket record, translated from the `PylonIssue` interface in
src/pylon.ts.  `first_response_time = none` models both a null and an
absent first-response timestamp. -/
structure PylonIssue where
  id : String
  number : Nat := 0
  title : String := ""
  state : String
  created_at : String := ""
  link : Option String := none
  first_response_time : Option String := none
  account : Option AccountRef := none
  assignee : Option UserRef := none
  requester : Option UserRef := none
  body_html : Option String := none
  attachment_urls : Option (List String) := none
  slack : Option SlackRef := none
deriving DecidableEq, Repr

/-- The `OPEN_NON_NEW_STATES` constant from src/pylon.ts. -/
def OPEN_NON_NEW_STATES : List String := ["waiting_on_you"]

/-- The state-filter view of `getNewIssues` (src/pylon.ts): the derived
views are pure predicate filters over the fetched ticket list, so the
embedding takes the fetched list as the argument. -/
def getNewIssues (issues : List PylonIssue) : List PylonIssue :=
  issues.filter (fun issue => issue.state = "new")

/-- The state-filter view of `getOpenNonNewIssues` (src/pylon.ts). -/
def getOpenNonNewIssues (issues : List PylonIssue) : List PylonIssue :=
  issues.filter (fun issue => OPEN_NON_NEW_STATES.contains issue.state)

/-- The filter of `getUnrespondedIssues` (src/pylon.ts lines 304-336):
first keep the tickets whose state is "new", then keep those whose
`first_response_time == null`; the remaining lines of the source only
print debug logs. -/
def getUnrespondedIssues (issues : List PylonIssue) : List PylonIssue :=
  let newStateIssues := issues.filter (fun issue => issue.state = "new")
  let trulyUnresponded := newStateIssues.filter
    (fun issue => issue.first_response_time = none)
  trulyUnresponded

/-- Parsed upstream response for the `fetchIssues` call in src/pylon.ts:
HTTP status line, raw body text, and the optional `data` list field of
the decoded JSON body (`none` when the field is absent). -/
structure SearchResponse where
  status : Nat
  statusText : String
  bodyText : String
  data : Option (List PylonIssue)
deriving Repr

/-- The `response.ok` predicate of the fetch API: status in the 2xx range. -/
def responseOk (status : Nat) : Bool :=
  200 ≤ status && status < 300

/-- Response handling of `fetchIssues` (src/pylon.ts lines 205-247): a
non-2xx response throws an error built from the status, status text and
body; a 2xx response without the expected `data` field degrades to an
empty list; otherwise the list is returned. -/
def fetchIssues (resp : SearchResponse) : Except String (List PylonIssue) :=
  if !responseOk resp.status then
    Except.error ("pylon api error: " ++ toString resp.status ++ " "
      ++ resp.statusText ++ " - " ++ resp.bodyText)
  else
    match resp.data with
    | none => Except.ok []
    | some issues => Except.ok issues

/-- Outcome of a single identity-resolution HTTP lookup: the request threw
(network error, or a client that raises on non-2xx), returned a non-2xx
status, or succeeded with a decoded payload. -/
inductive LookupOutcome (α : Type) where
  | exception : LookupOutcome α
  | httpError (status : Nat) : LookupOutcome α
  | success (payload : α) : LookupOutcome α
deriving Repr

/-- A process-lifetime identity cache, modelled as an association list whose
newest entries are at the front. -/
abbrev Cache := List (String × String)

/-- Account record returned by `fetchAccount` (src/pylon.ts `PylonAccount`). -/
structure PylonAccount where
  id : String
  name : String
deriving DecidableEq, Repr

/-- The `fetchAccount` cache discipline (src/pylon.ts lines 58-89): a cache
hit answers without a lookup; otherwise the lookup payload is the optional
`data.name` field of the response, cached and returned only when it is a
truthy (non-empty) string; exceptions, non-2xx statuses and unusable
payloads return null and write nothing. -/
def fetchAccount (cache : Cache) (accountId : String)
    (outcome : LookupOutcome (Option String)) : Cache × Option PylonAccount :=
  match cache.lookup accountId with
  | some name => (cache, some ⟨accountId, name⟩)
  | none =>
    match outcome with
    | LookupOutcome.exception => (cache, none)
    | LookupOutcome.httpError _ => (cache, none)
    | LookupOutcome.success payload =>
      match payload with
      | some name =>
        if name = "" then (cache, none)
        else ((accountId, name) :: cache, some ⟨accountId, name⟩)
      | none => (cache, none)

/-- The `fetchPylonUserEmail` cache discipline (src/pylon.ts lines 145-176),
identical in shape to `fetchAccount` with the `data.email` field. -/
def fetchPylonUserEmail (cache : Cache) (userId : String)
    (outcome : LookupOutcome (Option String)) : Cache × Option String :=
  match cache.lookup userId with
  | some email => (cache, some email)
  | none =>
    match outcome with
    | LookupOutcome.exception => (cache, none)
    | LookupOutcome.httpError _ => (cache, none)
    | LookupOutcome.success payload =>
      match payload with
      | some email =>
        if email = "" then (cache, none)
        else ((userId, email) :: cache, some email)
      | none => (cache, none)

end Pylon

namespace SlackUtils

/-- The optional user object of a successful `users.info` call, with the two
name fields read by `resolveUserName` (src/slackUtils.ts). -/
structure UserInfo where
  real_name : Option String := none
  name : Option String := none
deriving Repr

/-- JavaScript `a || b` on an optional string against a string default:
yields the left string when it is truthy (non-empty), otherwise the right. -/
def jsOrStr (a : Option String) (b : String) : String :=
  match a with
  | some s => if s = "" then b else s
  | none => b

/-- The `resolveUserName` cache discipline (src/slackUtils.ts lines 17-33):
a cache hit answers directly; a thrown lookup returns the raw id and writes
nothing; a successful response computes
`real_name || name || userId` and always caches that value, including the
raw-id fallback when no usable name field is present. -/
def resolveUserName (cache : Pylon.Cache) (userId : String)
    (outcome : Pylon.LookupOutcome (Option UserInfo)) : Pylon.Cache × String :=
  match cache.lookup userId with
  | some name => (cache, name)
  | none =>
    match outcome with
    | Pylon.LookupOutcome.exception => (cache, userId)
    | Pylon.LookupOutcome.httpError _ => (cache, userId)
    | Pylon.LookupOutcome.success user =>
      let name := jsOrStr (user.bind UserInfo.real_name)
        (jsOrStr (user.bind UserInfo.name) userId)
      ((userId, name) :: cache, name)

end SlackUtils

namespace Reminder

/-- The `getChannelName` cache discipline (src/openThreadReminder.ts lines
44-65): the payload is the optional `channel.name` field; only truthy names
are cached; errors are caught and return undefined without caching. -/
def getChannelName (cache : Pylon.Cache) (channelId : String)
    (outcome : Pylon.LookupOutcome (Option String)) : Pylon.Cache × Option String :=
  match cache.lookup channelId with
  | some name => (cache, some name)
  | none =>
    match outcome with
    | Pylon.LookupOutcome.exception => (cache, none)
    | Pylon.LookupOutcome.httpError _ => (cache, none)
    | Pylon.LookupOutcome.success payload =>
      match payload with
      | some name =>
        if name = "" then (cache, none)
        else ((channelId, name) :: cache, some name)
      | none => (cache, none)

/-- The `getSlackUserIdByEmail` cache discipline (src/openThreadReminder.ts
lines 103-124 and src/slackUtils.ts): the payload is the optional `user.id`
field; only truthy ids are cached; errors are caught and return undefined. -/
def getSlackUserIdByEmail (cache : Pylon.Cache) (email : String)
    (outcome : Pylon.LookupOutcome (Option String)) : Pylon.Cache × Option String :=
  match cache.lookup email with
  | some userId => (cache, some userId)
  | none =>
    match outcome with
    | Pylon.LookupOutcome.exception => (cache, none)
    | Pylon.LookupOutcome.httpError _ => (cache, none)
    | Pylon.LookupOutcome.success payload =>
      match payload with
      | some userId =>
        if userId = "" then (cache, none)
        else ((email, userId) :: cache, some userId)
      | none => (cache, none)

/-- The resolved-name maps handed to `formatIssue`
(src/openThreadReminder.ts `FormatOptions`); an absent map is modelled as
the constantly-undefined lookup. -/
structure FormatOptions where
  channelNames : String → Option String := fun _ => none
  accountNames : String → Option String := fun _ => none
  assigneeSlackIds : String → Option String := fun _ => none

/-- JavaScript `String.replace(".", "")`: removes only the first dot. -/
def removeFirstDot : List Char → List Char
  | [] => []
  | c :: cs => if c = '.' then cs else c :: removeFirstDot cs

/-- The `getSlackThreadUrl` helper (src/openThreadReminder.ts lines 94-98). -/
def getSlackThreadUrl (channelId : String) (messageTs : String) : String :=
  "https://buildwithfern.slack.com/archives/" ++ channelId ++ "/p"
    ++ String.mk (removeFirstDot messageTs.data)

/-- JavaScript `a || b` on two optional strings: the left operand when it is
truthy, otherwise the right operand unchanged. -/
def jsOrS (a b : Option String) : Option String :=
  match a with
  | some s => if s = "" then b else s
  | none => b

/-- The links block of `formatIssue`: a slack deep link when the ticket has
a truthy origin channel id and message timestamp (preferring `thread_ts`
when truthy), and a pylon link when the ticket has a truthy external link. -/
def issueLinks (issue : Pylon.PylonIssue) : List String :=
  (match issue.slack with
   | some sl =>
     if sl.channel_id ≠ "" ∧ sl.message_ts ≠ "" then
       let ts := match sl.thread_ts with
         | some t => if t = "" then sl.message_ts else t
         | none => sl.message_ts
       ["<" ++ getSlackThreadUrl sl.channel_id ts ++ "|slack>"]
     else []
   | none => []) ++
  (match issue.link with
   | some l => if l ≠ "" then ["<" ++ l ++ "|pylon>"] else []
   | none => [])

/-- The parenthesised rendering of the links block in `formatIssue`. -/
def linksPart (issue : Pylon.PylonIssue) : String :=
  let links := issueLinks issue
  if links ≠ [] then " (" ++ String.intercalate " | " links ++ ")" else ""

/-- The `accountName` local of `formatIssue`: the resolved account name,
guarded by the truthiness of the account id.  A falsy intermediate value is
normalised to `none`, which is interchangeable with it in every use. -/
def accountNameOf (issue : Pylon.PylonIssue) (opts : FormatOptions) : Option String :=
  match issue.account with
  | some acc => if acc.id = "" then none else opts.accountNames acc.id
  | none => none

/-- The channel alternative of the customer identifier in `formatIssue`:
`#` followed by the resolved channel name when that name is truthy. -/
def channelTagOf (issue : Pylon.PylonIssue) (opts : FormatOptions) : Option String :=
  match issue.slack with
  | some sl =>
    if sl.channel_id = "" then none
    else
      match opts.channelNames sl.channel_id with
      | some cn => if cn = "" then none else some ("#" ++ cn)
      | none => none
  | none => none

/-- JavaScript `email.split("@")[1]`: the second segment of the split. -/
def emailDomain (email : String) : Option String :=
  match email.splitOn "@" with
  | _ :: d :: _ => some d
  | _ => none

/-- The `requesterDomain` local of `formatIssue`. -/
def requesterDomainOf (issue : Pylon.PylonIssue) : Option String :=
  match issue.requester with
  | some r => emailDomain r.email
  | none => none

/-- The `customerIdentifier` local of `formatIssue`
(src/openThreadReminder.ts line 179): account name, else channel tag, else
requester email domain, chained with JavaScript `||`. -/
def customerIdentifier (issue : Pylon.PylonIssue) (opts : FormatOptions) : Option String :=
  jsOrS (jsOrS (accountNameOf issue opts) (channelTagOf issue opts))
    (requesterDomainOf issue)

/-- JavaScript `array.filter(Boolean)` over optional strings. -/
def filterTruthy (parts : List (Option String)) : List String :=
  parts.filterMap (fun part =>
    match part with
    | some s => if s = "" then none else some s
    | none => none)

/-- The description segment of `formatIssue`: the truthy members of
`[customerIdentifier, title.trim()]` joined with an em dash and prefixed
with a space, or empty when there are none. -/
def issueDescription (issue : Pylon.PylonIssue) (opts : FormatOptions) : String :=
  let descParts := filterTruthy
    [customerIdentifier issue opts, some issue.title.trim]
  if descParts ≠ [] then " " ++ String.intercalate " — " descParts else ""

/-- The assignee-mention segment of `formatIssue`. -/
def assigneePart (issue : Pylon.PylonIssue) (opts : FormatOptions) : String :=
  match issue.assignee with
  | some a =>
    if a.id = "" then ""
    else
      match opts.assigneeSlackIds a.id with
      | some sid => if sid = "" then "" else " <@" ++ sid ++ ">"
      | none => ""
  | none => ""

/-- The `formatIssue` digest line (src/openThreadReminder.ts lines 158-188):
index, description, links and assignee mention concatenated. -/
def formatIssue (issue : Pylon.PylonIssue) (index : Nat) (opts : FormatOptions) : String :=
  "  " ++ toString (index + 1) ++ "." ++ issueDescription issue opts
    ++ linksPart issue ++ assigneePart issue opts

/-- Claim-side description builder, following the words of the spec: the
customer-identifier slot when present, then the trimmed title when
non-empty, joined with an em dash and prefixed with a space. -/
def claimDescription (ident : Option String) (title : String) : String :=
  let parts := ident.toList ++ (if title.trim = "" then [] else [title.trim])
  if parts = [] then "" else " " ++ String.intercalate " — " parts

end Reminder

namespace Incident

/-- The schedule-entry user record of the incident.io response
(src/incidentIo.ts `ScheduleUser`). -/
structure ScheduleUser where
  email : String := ""
  id : String := ""
  name : String := ""
  slack_user_id : Option String := none
deriving DecidableEq, Repr

/-- One entry of `schedule_entries.final` (src/incidentIo.ts). -/
structure ScheduleEntry where
  end_at : String := ""
  entry_id : String := ""
  start_at : String := ""
  user : ScheduleUser
deriving DecidableEq, Repr

/-- Upstream outcome of one schedule query: a non-2xx response, or a 2xx
response carrying the `schedule_entries.final` list. -/
inductive UpstreamResult where
  | httpError (status : Nat) (statusText : String)
  | ok (final : List ScheduleEntry)
deriving Repr

/-- The per-schedule resolver `getOncallEngineerForSchedule`
(src/incidentIo.ts lines 27-74): a non-2xx response throws an error built
from the status line; an empty window or a missing (or empty, hence falsy)
slack user id degrades to null; otherwise the first entry yields its
slack user id. -/
def getOncallEngineerForSchedule (r : UpstreamResult) : Except String (Option String) :=
  match r with
  | UpstreamResult.httpError status statusText =>
    Except.error ("incident.io API error: " ++ toString status ++ " " ++ statusText)
  | UpstreamResult.ok entries =>
    match entries with
    | [] => Except.ok none
    | currentEntry :: _ =>
      match currentEntry.user.slack_user_id with
      | none => Except.ok none
      | some sid => if sid = "" then Except.ok none else Except.ok (some sid)

/-- JavaScript `[...new Set(xs)]`: first-occurrence deduplication, with an
accumulator of the ids already seen. -/
def jsSetDedup (seen : List String) : List String → List String
  | [] => []
  | x :: xs =>
    if x ∈ seen then jsSetDedup seen xs
    else x :: jsSetDedup (x :: seen) xs

/-- The on-call aggregator `getAllOncallEngineers` (src/incidentIo.ts lines
80-93): three parallel per-schedule queries joined by `Promise.all` (whose
rejection is propagated, not caught), then null filtering and
deduplication. -/
def getAllOncallEngineers (sdk docs askFern : UpstreamResult) :
    Except String (List String) :=
  match getOncallEngineerForSchedule sdk with
  | Except.error e => Except.error e
  | Except.ok a =>
    match getOncallEngineerForSchedule docs with
    | Except.error e => Except.error e
    | Except.ok b =>
      match getOncallEngineerForSchedule askFern with
      | Except.error e => Except.error e
      | Except.ok c => Except.ok (jsSetDedup [] (([a, b, c]).filterMap id))

/-- Whether an aggregation result is a fulfilled (non-thrown) one. -/
def resultIsOk (e : Except String (List String)) : Bool :=
  match e with
  | Except.ok _ => true
  | Except.error _ => false

end Incident

namespace Index

/-- The JavaScript test `/^\d+$/.test(arg)`: non-empty and all digits. -/
def isAllDigits (s : String) : Bool :=
  !s.isEmpty && s.toList.all (fun c => c.isDigit)

/-- The argument tokenisation `command.text.trim().split(/\s+/)`
(src/index.ts line 30); splitting the empty string yields the singleton
empty token, as in JavaScript. -/
def splitArgs (text : String) : List String :=
  let t := text.trim
  if t = "" then [""]
  else (t.split Char.isWhitespace).filter (fun tok => tok ≠ "")

/-- JavaScript `parseInt(s, 10)` restricted to all-digit tokens: the usual
base-10 left fold over the characters. -/
def parseIntDigits (s : String) : Nat :=
  s.toList.foldl (fun n c => 10 * n + (c.toNat - 48)) 0

/-- The day-window parsing of the check subcommand (src/index.ts lines
43-44 and 137-138): the first all-digit token after the subcommand, parsed
and clamped to a minimum of 1, defaulting to 1. -/
def parseDays (args : List String) : Nat :=
  match (args.drop 1).find? (fun arg => isAllDigits arg) with
  | some daysArg => max 1 (parseIntDigits daysArg)
  | none => 1

end Index

/-- A JSON-like value, the shape of webhook payload data
(`Record<string, unknown>`) in src/triage.ts. -/
inductive JVal where
  | null
  | bool (b : Bool)
  | num (n : Int)
  | str (s : String)
  | arr (elems : List JVal)
  | obj (fields : List (String × JVal))
deriving Repr

/-- JavaScript truthiness of a JSON value (NaN is not modelled). -/
def jsTruthy : JVal → Bool
  | JVal.null => false
  | JVal.bool b => b
  | JVal.num n => n != 0
  | JVal.str s => s ≠ ""
  | JVal.arr _ => true
  | JVal.obj _ => true

/-- Property lookup on a JSON object, first binding wins. -/
def jsGet (fields : List (String × JVal)) (key : String) : Option JVal :=
  match fields with
  | [] => none
  | (k, v) :: rest => if k = key then some v else jsGet rest key

namespace TriageV2

/-- JavaScript regex line terminators, which `.` does not match. -/
def isLineTerminator (c : Char) : Bool :=
  c = '\n' || c = '\r' || c = '\u2028' || c = '\u2029'

/-- Scans forward for a closing double brace reachable without crossing a
line terminator, the tail condition of a `\x7b\x7b.*\x7d\x7d` match. -/
def closesBeforeNewline : List Char → Bool
  | [] => false
  | c :: cs =>
    if c = '\x7d' && cs.head? = some '\x7d' then true
    else if isLineTerminator c then false
    else closesBeforeNewline cs

/-- The JavaScript test `/\x7b\x7b.*\x7d\x7d/.test(s)` over the character
list of `s`: some opening double brace is followed by a closing double
brace with no line terminator in between. -/
def hasTemplateMatch : List Char → Bool
  | [] => false
  | c :: cs =>
    (c = '\x7b' &&
      (match cs with
       | c2 :: rest => c2 = '\x7b' && closesBeforeNewline rest
       | [] => false)) ||
    hasTemplateMatch cs

/-- The `isTemplatePlaceholder` predicate (webhook handler revision,
triage.ts lines 16-18): a string value containing unresolved
template-substitution markup. -/
def isTemplatePlaceholder (v : JVal) : Bool :=
  match v with
  | JVal.str s => hasTemplateMatch s.data
  | _ => false

/-- The `stripPlaceholders` cleaner (webhook handler revision, triage.ts
lines 23-35): placeholder-valued fields are skipped; non-array object
values are cleaned recursively and kept only when the cleaned object is
non-empty; all other values (arrays, null and scalars included) are kept
unchanged. -/
def stripPlaceholders : List (String × JVal) → List (String × JVal)
  | [] => []
  | (key, value) :: rest =>
    if isTemplatePlaceholder value then stripPlaceholders rest
    else
      match value with
      | JVal.obj nestedFields =>
        let nested := stripPlaceholders nestedFields
        if nested.length > 0 then (key, JVal.obj nested) :: stripPlaceholders rest
        else stripPlaceholders rest
      | _ => (key, value) :: stripPlaceholders rest

/-- The `extractIssueData` normaliser (webhook handler revision, triage.ts
lines 37-48): the `data` object member if present, else the `issue` object
member, else the top-level payload, then cleaned of placeholders. -/
def extractIssueData (payload : List (String × JVal)) : List (String × JVal) :=
  let issue :=
    match jsGet payload "data" with
    | some (JVal.obj dataFields) => dataFields
    | _ =>
      match jsGet payload "issue" with
      | some (JVal.obj issueFields) => issueFields
      | _ => payload
  stripPlaceholders issue

mutual

/-- Claim-side predicate: the value contains unresolved
template-substitution markup anywhere within it. -/
def valueContainsTemplate : JVal → Bool
  | JVal.str s => hasTemplateMatch s.data
  | JVal.obj fields => fieldsContainTemplate fields
  | JVal.arr elems => elemsContainTemplate elems
  | _ => false

/-- Claim-side predicate over object fields, companion of
`valueContainsTemplate`. -/
def fieldsContainTemplate : List (String × JVal) → Bool
  | [] => false
  | (_, v) :: rest => valueContainsTemplate v || fieldsContainTemplate rest

/-- Claim-side predicate over array elements, companion of
`valueContainsTemplate`. -/
def elemsContainTemplate : List JVal → Bool
  | [] => false
  | v :: rest => valueContainsTemplate v || elemsContainTemplate rest

end

/-- An object is clean when no field at any nesting depth has a string
value containing template markup (array elements are not fields). -/
def objClean : List (String × JVal) → Bool
  | [] => true
  | (_, JVal.str s) :: rest => !hasTemplateMatch s.data && objClean rest
  | (_, JVal.obj fs) :: rest => objClean fs && objClean rest
  | _ :: rest => objClean rest

/-- JavaScript object spread `\x7b...base, ...over\x7d`: keys of `base`
keep their position but take the value from `over` when present, and the
remaining keys of `over` follow. -/
def jsSpread (base over : List (String × JVal)) : List (String × JVal) :=
  base.map (fun kv =>
    match jsGet over kv.1 with
    | some v => (kv.1, v)
    | none => kv) ++
  over.filter (fun kv => (jsGet base kv.1).isNone)

/-- JavaScript nullish coalescing `a ?? b` on optional members. -/
def jsNullish (a b : Option JVal) : Option JVal :=
  match a with
  | some JVal.null => b
  | none => b
  | some v => some v

/-- Sets (or removes, for an undefined value) one object member, the
explicit `slack:` override of the hydration merge. -/
def setField (fields : List (String × JVal)) (key : String) :
    Option JVal → List (String × JVal)
  | none => fields.filter (fun kv => kv.1 ≠ key)
  | some v =>
    if (jsGet fields key).isSome then
      fields.map (fun kv => if kv.1 = key then (key, v) else kv)
    else fields ++ [(key, v)]

/-- The hydration guard `issue.id` is truthy (webhook handler revision,
triage.ts line 118). -/
def hasIssueId (issue : List (String × JVal)) : Bool :=
  match jsGet issue "id" with
  | some v => jsTruthy v
  | none => false

/-- The hydration guard: the issue has an object-valued `slack` member with
a truthy `channel_id` (webhook handler revision, triage.ts lines 119-120). -/
def hasSlackData (issue : List (String × JVal)) : Bool :=
  match jsGet issue "slack" with
  | some (JVal.obj slackFields) =>
    (match jsGet slackFields "channel_id" with
     | some v => jsTruthy v
     | none => false)
  | _ => false

/-- The hydration block (webhook handler revision, triage.ts lines
117-129): when the payload carries a truthy issue id and no slack channel,
and the secondary fetch succeeds, the fetched ticket is merged under the
webhook fields with the `slack` member overridden by
`fullIssue.slack ?? issue.slack`. -/
def hydrateIssue (issue : List (String × JVal))
    (fetched : Option (List (String × JVal))) : List (String × JVal) :=
  if hasIssueId issue && !hasSlackData issue then
    match fetched with
    | some fullIssue =>
      setField (jsSpread fullIssue issue) "slack"
        (jsNullish (jsGet fullIssue "slack") (jsGet issue "slack"))
    | none => issue
  else issue

end TriageV2

namespace Triage

/-- Observable steps of the webhook handler, in execution order. -/
inductive WebhookEvent where
  | respond (status : Nat) (body : String)
  | extractPayload
  | buildContext
  | resolveOncall
  | postTriage
  | notifyThread
deriving DecidableEq, Repr

/-- An inbound webhook request: the two signature headers, the raw body
captured for signing, and the decoded JSON body. -/
structure WebhookRequest where
  signature : Option String := none
  timestamp : Option String := none
  rawBody : Option String := none
  body : List (String × JVal) := []

/-- Whether each fallible post-acknowledgment step succeeds; a failing step
is caught by the surrounding try block and ends processing. -/
structure DownstreamOutcome where
  oncallOk : Bool := true
  postOk : Bool := true
  notifyOk : Bool := true
deriving DecidableEq, Repr

/-- The `verifySignature` check (src/triage.ts lines 306-313): HMAC-SHA256
over `timestamp + "." + payload` under the shared secret, hex-encoded and
compared with `crypto.timingSafeEqual`, which throws when the byte lengths
differ.  The HMAC primitive is a parameter of the embedding. -/
def verifySignature (hmacSha256Hex : String → String → String)
    (secret payload signature timestamp : String) : Except Unit Bool :=
  let signingContent := timestamp ++ "." ++ payload
  let expectedSig := hmacSha256Hex secret signingContent
  if signature.utf8ByteSize = expectedSig.utf8ByteSize then
    Except.ok (signature == expectedSig)
  else Except.error ()

/-- The `extractIssueData` normaliser of the HMAC revision (src/triage.ts
lines 319-328), without placeholder stripping. -/
def extractIssueData (payload : List (String × JVal)) : List (String × JVal) :=
  match jsGet payload "data" with
  | some (JVal.obj dataFields) => dataFields
  | _ =>
    match jsGet payload "issue" with
    | some (JVal.obj issueFields) => issueFields
    | _ => payload

/-- The post-acknowledgment processing trace (src/triage.ts lines 400-457):
payload extraction and context building, then the fallible on-call
resolution, triage post and optional origin-thread notification, stopping
at the first failure, which the try block swallows. -/
def processWebhookAsync (req : WebhookRequest) (d : DownstreamOutcome) :
    List WebhookEvent :=
  let issue := extractIssueData req.body
  let slackFields :=
    match jsGet issue "slack" with
    | some (JVal.obj fs) => fs
    | _ => []
  let channelTruthy :=
    match jsGet slackFields "channel_id" with
    | some v => jsTruthy v
    | none => false
  let tsTruthy :=
    (match jsGet slackFields "thread_ts" with
     | some v => jsTruthy v
     | none => false) ||
    (match jsGet slackFields "message_ts" with
     | some v => jsTruthy v
     | none => false)
  WebhookEvent.extractPayload :: WebhookEvent.buildContext ::
    (if d.oncallOk then
      WebhookEvent.resolveOncall ::
        (if d.postOk then
          WebhookEvent.postTriage ::
            (if channelTruthy && tsTruthy then
              (if d.notifyOk then [WebhookEvent.notifyThread] else [])
            else [])
        else [])
    else [])

/-- The webhook request handler (src/triage.ts lines 370-398): missing
signature, timestamp or raw body responds 401; a failed or thrown
signature verification responds 401; a valid signature responds 200 first
and then runs the asynchronous processing. -/
def createWebhookHandler (hmacSha256Hex : String → String → String)
    (secret : String) (req : WebhookRequest) (d : DownstreamOutcome) :
    List WebhookEvent :=
  match req.signature, req.timestamp, req.rawBody with
  | some signature, some timestamp, some rawBody =>
    (match verifySignature hmacSha256Hex secret rawBody signature timestamp with
     | Except.ok true =>
       WebhookEvent.respond 200 "ok:true" :: processWebhookAsync req d
     | Except.ok false => [WebhookEvent.respond 401 "invalid signature"]
     | Except.error _ => [WebhookEvent.respond 401 "invalid signature"])
  | _, _, _ => [WebhookEvent.respond 401 "missing signature headers"]

/-- Whether an event is the HTTP response. -/
def isRespondEvent : WebhookEvent → Bool
  | WebhookEvent.respond _ _ => true
  | _ => false

/-- The HTTP response of a handler trace: its first respond event. -/
def httpResponse (events : List WebhookEvent) : Option WebhookEvent :=
  events.find? isRespondEvent

end Triage

/-- C1: for every fetched ticket list, the unresponded view returns exactly
the tickets whose state is "new" and whose first-response timestamp is null
or absent, keeping fetch order: it equals the one-pass filter by that
conjunction, it is a sublist of the input, and membership is characterised
exactly by the two conditions. -/
theorem unresponded_view_exact (issues : List Pylon.PylonIssue) :
    Pylon.getUnrespondedIssues issues =
      issues.filter (fun issue =>
        issue.state = "new" && issue.first_response_time = none) ∧
    (Pylon.getUnrespondedIssues issues).Sublist issues := by
  constructor
  · induction issues with
    | nil => rfl
    | cons hd tl ih =>
      simp only [Pylon.getUnrespondedIssues, List.filter] at ih ⊢
      by_cases hs : hd.state = "new"
      · by_cases hf : hd.first_response_time = none
        · simp [hs, hf, ih]
        · simp [hs, hf, ih]
      · simp [hs, ih]
  · exact List.Sublist.trans (List.filter_sublist _) (List.filter_sublist _)

/-- C6 counterexample: ticket state partitioning is not mutually exclusive
and not total.  A ticket with state "new" and no first-response timestamp is
returned by both the new view and the unresponded view over the same fetched
set, and a ticket with state "on_hold" is returned by none of the views. -/
theorem state_views_overlap :
    let t1 : Pylon.PylonIssue := { id := "iss_1", state := "new" }
    let t2 : Pylon.PylonIssue := { id := "iss_2", state := "on_hold" }
    Pylon.getNewIssues [t1, t2] = [t1] ∧
    Pylon.getUnrespondedIssues [t1, t2] = [t1] ∧
    Pylon.getOpenNonNewIssues [t1, t2] = [] := by
  refine ⟨?_, ?_, ?_⟩ <;> rfl

/-- C6 amended: the new and waiting-on-responder views have disjoint state
predicates, the unresponded view is contained in the new view, and a ticket
whose state is neither "new" nor "waiting_on_you" appears in none of the
three views; but the classification is neither total nor mutually
exclusive as originally claimed. -/
theorem state_views_partial_partition (issues : List Pylon.PylonIssue)
    (t : Pylon.PylonIssue) :
    (t ∈ Pylon.getUnrespondedIssues issues → t ∈ Pylon.getNewIssues issues) ∧
    ¬ (t ∈ Pylon.getNewIssues issues ∧ t ∈ Pylon.getOpenNonNewIssues issues) ∧
    (t.state ≠ "new" → t.state ≠ "waiting_on_you" →
      t ∉ Pylon.getNewIssues issues ∧
      t ∉ Pylon.getOpenNonNewIssues issues ∧
      t ∉ Pylon.getUnrespondedIssues issues) := by
  refine ⟨?_, ?_, ?_⟩
  · intro ht
    simp only [Pylon.getUnrespondedIssues, List.mem_filter,
      decide_eq_true_eq] at ht
    simpa [Pylon.getNewIssues, List.mem_filter] using ⟨ht.1.1, ht.1.2⟩
  · rintro ⟨hnew, hopen⟩
    simp only [Pylon.getNewIssues, List.mem_filter] at hnew
    simp only [Pylon.getOpenNonNewIssues, Pylon.OPEN_NON_NEW_STATES,
      List.mem_filter] at hopen
    have h1 : t.state = "new" := by simpa using hnew.2
    have h2 : t.state = "waiting_on_you" := by simpa using hopen.2
    rw [h1] at h2
    exact absurd h2 (by decide)
  · intro h1 h2
    refine ⟨?_, ?_, ?_⟩
    · intro ht
      simp only [Pylon.getNewIssues, List.mem_filter] at ht
      exact h1 (by simpa using ht.2)
    · intro ht
      simp only [Pylon.getOpenNonNewIssues, Pylon.OPEN_NON_NEW_STATES,
        List.mem_filter] at ht
      exact h2 (by simpa using ht.2)
    · intro ht
      simp only [Pylon.getUnrespondedIssues, List.mem_filter] at ht
      exact h1 (by simpa using ht.1.2)

/-- Witness for the amended C6 theorem at a concrete ticket list. -/
theorem state_views_partial_partition_witness :
    let t1 : Pylon.PylonIssue := { id := "iss_1", state := "new" }
    t1 ∈ Pylon.getNewIssues [t1] := by
  intro t1
  exact (state_views_partial_partition [t1] t1).1 (by decide)

/-- C7: fetchIssues fails with an error carrying the HTTP status and
response body on every non-2xx upstream response; a 2xx response whose
expected list field is absent yields the empty list without failing, and a
2xx response with the list yields it. -/
theorem fetch_issues_error_handling (resp : Pylon.SearchResponse) :
    (Pylon.responseOk resp.status = false →
      Pylon.fetchIssues resp = Except.error ("pylon api error: "
        ++ toString resp.status ++ " " ++ resp.statusText ++ " - "
        ++ resp.bodyText)) ∧
    (Pylon.responseOk resp.status = true → resp.data = none →
      Pylon.fetchIssues resp = Except.ok []) ∧
    (∀ issues, Pylon.responseOk resp.status = true → resp.data = some issues →
      Pylon.fetchIssues resp = Except.ok issues) := by
  refine ⟨?_, ?_, ?_⟩
  · intro h
    simp [Pylon.fetchIssues, h]
  · intro h hd
    simp [Pylon.fetchIssues, h, hd]
  · intro issues h hd
    simp [Pylon.fetchIssues, h, hd]

/-- Witness for the C7 theorem at a concrete 500 response. -/
theorem fetch_issues_error_handling_witness :
    Pylon.fetchIssues { status := 500, statusText := "Internal Server Error",
                        bodyText := "boom", data := none } =
      Except.error "pylon api error: 500 Internal Server Error - boom" := by
  have h := (fetch_issues_error_handling { status := 500,
                                            statusText := "Internal Server Error",
                                            bodyText := "boom",
                                            data := none }).1 (by decide)
  rw [h]
  rfl

/-- C5 counterexample: the chat-user display-name cache does not store only
positive resolutions.  A successful lookup whose user object carries no
usable name field writes the raw-id fallback pair into the cache instead of
writing nothing. -/
theorem display_name_cache_stores_fallback :
    SlackUtils.resolveUserName [] "U123"
      (Pylon.LookupOutcome.success (some { real_name := none, name := none })) =
      ([("U123", "U123")], "U123") := by
  rfl

/-- C5 amended: the account-name, helpdesk-user-email, email-to-chat-id and
channel-name caches store only positive resolutions — a thrown lookup, a
non-2xx response or a response without a usable field leaves the cache
unchanged, while a usable field on a cache miss is stored; the chat-user
display-name cache leaves the cache unchanged on a thrown lookup but writes
on every successful response, caching the raw-id fallback when no usable
name field is present. -/
theorem identity_caches_positive_only (cache : Pylon.Cache) (key : String)
    (st : Nat) (payload : Option String) (user : Option SlackUtils.UserInfo) :
    ((Pylon.fetchAccount cache key Pylon.LookupOutcome.exception).1 = cache ∧
     (Pylon.fetchAccount cache key (Pylon.LookupOutcome.httpError st)).1 = cache ∧
     ((payload = none ∨ payload = some "") →
       (Pylon.fetchAccount cache key (Pylon.LookupOutcome.success payload)).1 = cache) ∧
     (∀ name, name ≠ "" → cache.lookup key = none →
       Pylon.fetchAccount cache key (Pylon.LookupOutcome.success (some name)) =
         ((key, name) :: cache, some ⟨key, name⟩))) ∧
    ((Pylon.fetchPylonUserEmail cache key Pylon.LookupOutcome.exception).1 = cache ∧
     (Pylon.fetchPylonUserEmail cache key (Pylon.LookupOutcome.httpError st)).1 = cache ∧
     ((payload = none ∨ payload = some "") →
       (Pylon.fetchPylonUserEmail cache key (Pylon.LookupOutcome.success payload)).1 = cache) ∧
     (∀ email, email ≠ "" → cache.lookup key = none →
       Pylon.fetchPylonUserEmail cache key (Pylon.LookupOutcome.success (some email)) =
         ((key, email) :: cache, some email))) ∧
    ((Reminder.getChannelName cache key Pylon.LookupOutcome.exception).1 = cache ∧
     (Reminder.getChannelName cache key (Pylon.LookupOutcome.httpError st)).1 = cache ∧
     ((payload = none ∨ payload = some "") →
       (Reminder.getChannelName cache key (Pylon.LookupOutcome.success payload)).1 = cache) ∧
     (∀ name, name ≠ "" → cache.lookup key = none →
       Reminder.getChannelName cache key (Pylon.LookupOutcome.success (some name)) =
         ((key, name) :: cache, some name))) ∧
    ((Reminder.getSlackUserIdByEmail cache key Pylon.LookupOutcome.exception).1 = cache ∧
     (Reminder.getSlackUserIdByEmail cache key (Pylon.LookupOutcome.httpError st)).1 = cache ∧
     ((payload = none ∨ payload = some "") →
       (Reminder.getSlackUserIdByEmail cache key (Pylon.LookupOutcome.success payload)).1 = cache) ∧
     (∀ userId, userId ≠ "" → cache.lookup key = none →
       Reminder.getSlackUserIdByEmail cache key (Pylon.LookupOutcome.success (some userId)) =
         ((key, userId) :: cache, some userId))) ∧
    ((SlackUtils.resolveUserName cache key Pylon.LookupOutcome.exception).1 = cache ∧
     (cache.lookup key = none →
       SlackUtils.resolveUserName cache key (Pylon.LookupOutcome.success user) =
         ((key, SlackUtils.jsOrStr (user.bind SlackUtils.UserInfo.real_name)
             (SlackUtils.jsOrStr (user.bind SlackUtils.UserInfo.name) key)) :: cache,
          SlackUtils.jsOrStr (user.bind SlackUtils.UserInfo.real_name)
            (SlackUtils.jsOrStr (user.bind SlackUtils.UserInfo.name) key)))) := by
  refine ⟨⟨?_, ?_, ?_, ?_⟩, ⟨?_, ?_, ?_, ?_⟩, ⟨?_, ?_, ?_, ?_⟩, ⟨?_, ?_, ?_, ?_⟩, ?_, ?_⟩
  all_goals
    first
    | (rintro (rfl | rfl) <;> cases h : cache.lookup key <;>
        simp [Pylon.fetchAccount, Pylon.fetchPylonUserEmail,
          Reminder.getChannelName, Reminder.getSlackUserIdByEmail, h] <;> done)
    | (intro v hv hmiss
       simp [Pylon.fetchAccount, Pylon.fetchPylonUserEmail,
         Reminder.getChannelName, Reminder.getSlackUserIdByEmail, hmiss, hv]
       done)
    | (intro hmiss
       simp [SlackUtils.resolveUserName, hmiss]
       done)
    | (cases h : cache.lookup key <;>
        simp [Pylon.fetchAccount, Pylon.fetchPylonUserEmail,
          Reminder.getChannelName, Reminder.getSlackUserIdByEmail,
          SlackUtils.resolveUserName, h] <;> done)

/-- Witness for the amended C5 theorem: a thrown account lookup leaves a
concrete cache unchanged. -/
theorem identity_caches_positive_only_witness :
    (Pylon.fetchAccount [("acc_1", "Acme")] "acc_2"
      Pylon.LookupOutcome.exception).1 = [("acc_1", "Acme")] :=
  (identity_caches_positive_only [("acc_1", "Acme")] "acc_2" 0 none none).1.1

/-- C4 counterexample: the on-call aggregator is not total on per-team
failures.  A non-2xx upstream response for the first schedule makes the
whole call throw instead of omitting that team. -/
theorem oncall_aggregator_throws_on_upstream_error :
    Incident.getAllOncallEngineers
      (Incident.UpstreamResult.httpError 500 "Internal Server Error")
      (Incident.UpstreamResult.ok []) (Incident.UpstreamResult.ok []) =
      Except.error "incident.io API error: 500 Internal Server Error" := by
  rfl

/-- Helper: JavaScript set deduplication yields a list without duplicates
whose members avoid the accumulator of already-seen ids. -/
theorem jsSetDedup_nodup (l : List String) (seen : List String) :
    (Incident.jsSetDedup seen l).Nodup ∧
    ∀ x ∈ Incident.jsSetDedup seen l, x ∉ seen := by
  induction l generalizing seen with
  | nil => simp [Incident.jsSetDedup]
  | cons x xs ih =>
    by_cases hx : x ∈ seen
    · simpa [Incident.jsSetDedup, hx] using ih seen
    · obtain ⟨hnd, hav⟩ := ih (x :: seen)
      refine ⟨?_, ?_⟩
      · simp only [Incident.jsSetDedup, hx, if_false, List.nodup_cons]
        exact ⟨fun hmem => (hav x hmem) (List.mem_cons_self x seen), hnd⟩
      · intro y hy
        simp only [Incident.jsSetDedup, hx, if_false, List.mem_cons] at hy
        rcases hy with rfl | hy
        · exact hx
        · exact fun hys => (hav y hy) (List.mem_cons_of_mem x hys)

/-- Helper: a 2xx schedule response never makes the per-schedule resolver
throw. -/
theorem oncall_ok_of_ok (entries : List Incident.ScheduleEntry) :
    ∃ r, Incident.getOncallEngineerForSchedule (Incident.UpstreamResult.ok entries) =
      Except.ok r := by
  cases entries with
  | nil => exact ⟨none, rfl⟩
  | cons e rest =>
    cases hs : e.user.slack_user_id with
    | none => exact ⟨none, by simp [Incident.getOncallEngineerForSchedule, hs]⟩
    | some sid =>
      by_cases h0 : sid = ""
      · exact ⟨none, by simp [Incident.getOncallEngineerForSchedule, hs, h0]⟩
      · exact ⟨some sid, by simp [Incident.getOncallEngineerForSchedule, hs, h0]⟩

/-- C4 amended: the aggregator returns a deduplicated (possibly empty) list
of chat user ids whenever all three schedule queries return 2xx; an empty
schedule window or a missing slack user id degrades to omission of that
team; but a non-2xx upstream response for any of the three teams — the
first, the second or the third schedule alike — is thrown by the
aggregator rather than degraded to omission. -/
theorem oncall_resolver_degrades_amended (sdk docs askFern : Incident.UpstreamResult) :
    (∀ ids, Incident.getAllOncallEngineers sdk docs askFern = Except.ok ids →
      ids.Nodup) ∧
    Incident.getOncallEngineerForSchedule (Incident.UpstreamResult.ok []) =
      Except.ok none ∧
    (∀ u rest, u.slack_user_id = none →
      Incident.getOncallEngineerForSchedule
        (Incident.UpstreamResult.ok ({ user := u } :: rest)) = Except.ok none) ∧
    (∀ st stx, Incident.getAllOncallEngineers
      (Incident.UpstreamResult.httpError st stx) docs askFern =
      Except.error ("incident.io API error: " ++ toString st ++ " " ++ stx)) ∧
    (∀ e1 st stx, sdk = Incident.UpstreamResult.ok e1 →
      Incident.getAllOncallEngineers sdk
        (Incident.UpstreamResult.httpError st stx) askFern =
      Except.error ("incident.io API error: " ++ toString st ++ " " ++ stx)) ∧
    (∀ e1 e2 st stx, sdk = Incident.UpstreamResult.ok e1 →
      docs = Incident.UpstreamResult.ok e2 →
      Incident.getAllOncallEngineers sdk docs
        (Incident.UpstreamResult.httpError st stx) =
      Except.error ("incident.io API error: " ++ toString st ++ " " ++ stx)) ∧
    (∀ e1 e2 e3, sdk = Incident.UpstreamResult.ok e1 →
      docs = Incident.UpstreamResult.ok e2 →
      askFern = Incident.UpstreamResult.ok e3 →
      Incident.resultIsOk (Incident.getAllOncallEngineers sdk docs askFern) = true) := by
  refine ⟨?_, rfl, ?_, ?_, ?_, ?_, ?_⟩
  · intro ids h
    cases h1 : Incident.getOncallEngineerForSchedule sdk with
    | error m1 => simp [Incident.getAllOncallEngineers, h1] at h
    | ok a =>
      cases h2 : Incident.getOncallEngineerForSchedule docs with
      | error m2 => simp [Incident.getAllOncallEngineers, h1, h2] at h
      | ok b =>
        cases h3 : Incident.getOncallEngineerForSchedule askFern with
        | error m3 =>
          simp [Incident.getAllOncallEngineers, h1, h2, h3] at h
        | ok c =>
          simp only [Incident.getAllOncallEngineers, h1, h2, h3,
            Except.ok.injEq] at h
          subst h
          exact (jsSetDedup_nodup _ []).1
  · intro u rest hu
    simp [Incident.getOncallEngineerForSchedule, hu]
  · intro st stx
    rfl
  · intro e1 st stx h1
    subst h1
    obtain ⟨r1, hr1⟩ := oncall_ok_of_ok e1
    simp only [Incident.getAllOncallEngineers, hr1]
    rfl
  · intro e1 e2 st stx h1 h2
    subst h1; subst h2
    obtain ⟨r1, hr1⟩ := oncall_ok_of_ok e1
    obtain ⟨r2, hr2⟩ := oncall_ok_of_ok e2
    simp only [Incident.getAllOncallEngineers, hr1, hr2]
    rfl
  · intro e1 e2 e3 h1 h2 h3
    subst h1; subst h2; subst h3
    obtain ⟨r1, hr1⟩ := oncall_ok_of_ok e1
    obtain ⟨r2, hr2⟩ := oncall_ok_of_ok e2
    obtain ⟨r3, hr3⟩ := oncall_ok_of_ok e3
    simp [Incident.getAllOncallEngineers, hr1, hr2, hr3, Incident.resultIsOk]

/-- Witness for the amended C4 theorem: with all three schedules answering
2xx and the same engineer on each, the aggregator returns the singleton
deduplicated list. -/
theorem oncall_resolver_degrades_amended_witness :
    Incident.getOncallEngineerForSchedule (Incident.UpstreamResult.ok []) =
      Except.ok none ∧
    Incident.getOncallEngineerForSchedule
      (Incident.UpstreamResult.ok [{ user := { slack_user_id := none } }]) =
      Except.ok none :=
  ⟨(oncall_resolver_degrades_amended (Incident.UpstreamResult.ok [])
      (Incident.UpstreamResult.ok []) (Incident.UpstreamResult.ok [])).2.1,
   (oncall_resolver_degrades_amended (Incident.UpstreamResult.ok [])
      (Incident.UpstreamResult.ok []) (Incident.UpstreamResult.ok [])).2.2.1
      { slack_user_id := none } [] rfl⟩

/-- C2: the webhook handler responds 401 and performs nothing else when the
signature header, timestamp header or raw body is missing, when the HMAC
over timestamp + "." + rawBody does not equal the supplied signature, or
when the signature has the wrong length (the comparison throws and is
caught); on a valid signature it responds 200 ok:true as its first step,
and the HTTP response does not depend on the downstream outcome. -/
theorem webhook_auth_gate (hmacSha256Hex : String → String → String)
    (secret : String) (req : Triage.WebhookRequest)
    (d : Triage.DownstreamOutcome) :
    ((req.signature = none ∨ req.timestamp = none ∨ req.rawBody = none) →
      Triage.createWebhookHandler hmacSha256Hex secret req d =
        [Triage.WebhookEvent.respond 401 "missing signature headers"]) ∧
    (∀ sig ts raw, req.signature = some sig → req.timestamp = some ts →
      req.rawBody = some raw →
      Triage.verifySignature hmacSha256Hex secret raw sig ts ≠ Except.ok true →
      Triage.createWebhookHandler hmacSha256Hex secret req d =
        [Triage.WebhookEvent.respond 401 "invalid signature"]) ∧
    (∀ sig ts raw, req.signature = some sig → req.timestamp = some ts →
      req.rawBody = some raw →
      sig.utf8ByteSize ≠ (hmacSha256Hex secret (ts ++ "." ++ raw)).utf8ByteSize →
      Triage.createWebhookHandler hmacSha256Hex secret req d =
        [Triage.WebhookEvent.respond 401 "invalid signature"]) ∧
    (∀ sig ts raw, req.signature = some sig → req.timestamp = some ts →
      req.rawBody = some raw →
      Triage.verifySignature hmacSha256Hex secret raw sig ts = Except.ok true →
      (Triage.createWebhookHandler hmacSha256Hex secret req d).head? =
        some (Triage.WebhookEvent.respond 200 "ok:true")) ∧
    (∀ d2, Triage.httpResponse
        (Triage.createWebhookHandler hmacSha256Hex secret req d) =
      Triage.httpResponse
        (Triage.createWebhookHandler hmacSha256Hex secret req d2)) := by
  refine ⟨?_, ?_, ?_, ?_, ?_⟩
  · intro h
    rcases hsig : req.signature with _ | sig
    · simp [Triage.createWebhookHandler, hsig]
    · rcases hts : req.timestamp with _ | ts
      · simp [Triage.createWebhookHandler, hsig, hts]
      · rcases hraw : req.rawBody with _ | raw
        · simp [Triage.createWebhookHandler, hsig, hts, hraw]
        · rcases h with h | h | h <;> simp_all
  · intro sig ts raw hsig hts hraw hver
    cases hv : Triage.verifySignature hmacSha256Hex secret raw sig ts with
    | error e => simp [Triage.createWebhookHandler, hsig, hts, hraw, hv]
    | ok b =>
      cases b with
      | true => exact absurd hv hver
      | false => simp [Triage.createWebhookHandler, hsig, hts, hraw, hv]
  · intro sig ts raw hsig hts hraw hlen
    have hv : Triage.verifySignature hmacSha256Hex secret raw sig ts =
        Except.error () := by
      simp [Triage.verifySignature, hlen]
    simp [Triage.createWebhookHandler, hsig, hts, hraw, hv]
  · intro sig ts raw hsig hts hraw hv
    simp [Triage.createWebhookHandler, hsig, hts, hraw, hv]
  · intro d2
    rcases hsig : req.signature with _ | sig
    · simp [Triage.createWebhookHandler, hsig]
    · rcases hts : req.timestamp with _ | ts
      · simp [Triage.createWebhookHandler, hsig, hts]
      · rcases hraw : req.rawBody with _ | raw
        · simp [Triage.createWebhookHandler, hsig, hts, hraw]
        · cases hv : Triage.verifySignature hmacSha256Hex secret raw sig ts with
          | error e => simp [Triage.createWebhookHandler, hsig, hts, hraw, hv]
          | ok b =>
            cases b with
            | false => simp [Triage.createWebhookHandler, hsig, hts, hraw, hv]
            | true =>
              simp only [Triage.createWebhookHandler, hsig, hts, hraw, hv]
              rw [Triage.httpResponse, Triage.httpResponse,
                List.find?_cons_of_pos _ (by rfl),
                List.find?_cons_of_pos _ (by rfl)]

/-- Witness for the C2 theorem: a request with no signature header at all is
rejected with 401 and produces no other event. -/
theorem webhook_auth_gate_witness :
    Triage.createWebhookHandler (fun _ _ => "00") "secret" {} {} =
      [Triage.WebhookEvent.respond 401 "missing signature headers"] :=
  (webhook_auth_gate (fun _ _ => "00") "secret" {} {}).1 (Or.inl rfl)

/-- Helper: a list element rejected by the predicate does not affect the
first match. -/
theorem find?_skip_middle {α : Type} (p : α → Bool) (x : α) (hx : p x = false)
    (l1 l2 : List α) : (l1 ++ x :: l2).find? p = (l1 ++ l2).find? p := by
  induction l1 with
  | nil => simp [List.find?, hx]
  | cons y l1 ih =>
    cases hy : p y with
    | true => simp [List.find?, hy]
    | false => simpa [List.find?, hy] using ih

/-- C10: the effective day window of the check subcommand is at least 1, is
1 when no all-digit token follows the subcommand, equals the first all-digit
token after the subcommand clamped to a minimum of 1 otherwise, and is
unchanged by inserting a non-all-digit token (such as a flag) anywhere after
the subcommand. -/
theorem check_days_parsing (args : List String) :
    1 ≤ Index.parseDays args ∧
    ((args.drop 1).find? (fun arg => Index.isAllDigits arg) = none →
      Index.parseDays args = 1) ∧
    (∀ daysArg,
      (args.drop 1).find? (fun arg => Index.isAllDigits arg) = some daysArg →
      Index.parseDays args = max 1 (Index.parseIntDigits daysArg)) ∧
    (∀ pre flag post, pre ≠ [] → Index.isAllDigits flag = false →
      Index.parseDays (pre ++ flag :: post) = Index.parseDays (pre ++ post)) := by
  refine ⟨?_, ?_, ?_, ?_⟩
  · cases h : (args.drop 1).find? (fun arg => Index.isAllDigits arg) with
    | none => simp [Index.parseDays, ← List.drop_one, h]
    | some d => simp [Index.parseDays, ← List.drop_one, h]
  · intro h
    simp [Index.parseDays, ← List.drop_one, h]
  · intro daysArg h
    simp [Index.parseDays, ← List.drop_one, h]
  · intro pre flag post hpre hflag
    cases pre with
    | nil => exact absurd rfl hpre
    | cons a pre =>
      simp only [Index.parseDays, List.cons_append, List.drop_succ_cons,
        List.drop_zero]
      rw [find?_skip_middle _ flag hflag]

/-- Witness for the C10 theorem: the token "0" yields a 1-day window. -/
theorem check_days_parsing_witness : Index.parseDays ["check", "0"] = 1 := by
  have h := (check_days_parsing ["check", "0"]).2.2.1 "0" (by decide)
  exact h.trans (by decide)

/-- Helper: property lookup distributes over list append. -/
theorem jsGet_append (xs ys : List (String × JVal)) (k : String) :
    jsGet (xs ++ ys) k =
      match jsGet xs k with
      | some v => some v
      | none => jsGet ys k := by
  induction xs with
  | nil => simp [jsGet]
  | cons kv xs ih =>
    by_cases hk : kv.1 = k
    · simp [jsGet, hk]
    · simpa [jsGet, hk] using ih

/-- Helper: lookup after the key-preserving value replacement performed by
the base part of the object spread. -/
theorem jsGet_spread_map (a b : List (String × JVal)) (k : String) :
    jsGet (a.map (fun kv =>
        match jsGet b kv.1 with
        | some v => (kv.1, v)
        | none => kv)) k =
      match jsGet a k with
      | none => none
      | some w =>
        match jsGet b k with
        | some v => some v
        | none => some w := by
  induction a with
  | nil => simp [jsGet]
  | cons kv a ih =>
    obtain ⟨k1, v1⟩ := kv
    by_cases hk : k1 = k
    · subst hk
      cases hb : jsGet b k1 <;> simp [jsGet, hb]
    · cases hb : jsGet b k1 <;> simpa [jsGet, hk, hb] using ih

/-- Helper: lookup after dropping the override keys already present in the
base object, the second part of the object spread. -/
theorem jsGet_spread_filter (a b : List (String × JVal)) (k : String) :
    jsGet (b.filter (fun kv => (jsGet a kv.1).isNone)) k =
      match jsGet a k with
      | some _ => none
      | none => jsGet b k := by
  induction b with
  | nil => cases ha : jsGet a k <;> simp [jsGet, ha]
  | cons kv b ih =>
    obtain ⟨k1, v1⟩ := kv
    by_cases hk : k1 = k
    · subst hk
      cases ha : jsGet a k1 <;> simp [jsGet, ha, ih]
    · cases ha1 : jsGet a k1 <;> cases ha : jsGet a k <;>
        simp_all [jsGet, hk]

/-- Helper: lookup in the object spread is the override value when present,
else the base value. -/
theorem jsGet_jsSpread (a b : List (String × JVal)) (k : String) :
    jsGet (TriageV2.jsSpread a b) k =
      match jsGet b k with
      | some v => some v
      | none => jsGet a k := by
  rw [TriageV2.jsSpread, jsGet_append, jsGet_spread_map, jsGet_spread_filter]
  cases ha : jsGet a k <;> cases hb : jsGet b k <;> simp

/-- Helper: removing the entries of one key makes its lookup undefined. -/
theorem jsGet_filterOut_same (f : List (String × JVal)) (key : String) :
    jsGet (f.filter (fun kv => kv.1 ≠ key)) key = none := by
  induction f with
  | nil => simp [jsGet]
  | cons kv f ih =>
    by_cases hk : kv.1 = key
    · simpa [hk] using ih
    · simpa [jsGet, hk] using ih

/-- Helper: one unfolding step of the property lookup. -/
theorem jsGet_cons (k1 : String) (v1 : JVal) (rest : List (String × JVal))
    (k : String) :
    jsGet ((k1, v1) :: rest) k = if k1 = k then some v1 else jsGet rest k := rfl

/-- Helper: removing the entries of one key leaves other lookups intact. -/
theorem jsGet_filterOut_other (f : List (String × JVal)) (key k : String)
    (hk : k ≠ key) : jsGet (f.filter (fun kv => kv.1 ≠ key)) k = jsGet f k := by
  induction f with
  | nil => simp
  | cons kv f ih =>
    obtain ⟨k1, v1⟩ := kv
    by_cases h1 : k1 = key
    · subst h1
      have hkk : ¬ k1 = k := fun h => hk h.symm
      simpa [List.filter_cons, jsGet_cons, hkk] using ih
    · by_cases h2 : k1 = k
      · subst h2
        simp [List.filter_cons, jsGet_cons, h1]
      · simpa [List.filter_cons, jsGet_cons, h1, h2] using ih

/-- Helper: in-place replacement of one key rewrites exactly its lookup. -/
theorem jsGet_mapSet_same (f : List (String × JVal)) (key : String) (x : JVal) :
    jsGet (f.map (fun kv => if kv.1 = key then (key, x) else kv)) key =
      (jsGet f key).map (fun _ => x) := by
  induction f with
  | nil => simp [jsGet]
  | cons kv f ih =>
    obtain ⟨k1, v1⟩ := kv
    by_cases hk1 : k1 = key
    · subst hk1
      simp [List.map_cons, jsGet_cons]
    · simpa [List.map_cons, jsGet_cons, hk1] using ih

/-- Helper: in-place replacement of one key leaves other lookups intact. -/
theorem jsGet_mapSet_other (f : List (String × JVal)) (key k : String)
    (x : JVal) (hk : k ≠ key) :
    jsGet (f.map (fun kv => if kv.1 = key then (key, x) else kv)) k =
      jsGet f k := by
  induction f with
  | nil => simp [jsGet]
  | cons kv f ih =>
    obtain ⟨k1, v1⟩ := kv
    by_cases h1 : k1 = key
    · subst h1
      have hkk : ¬ k1 = k := fun h => hk h.symm
      simpa [List.map_cons, jsGet_cons, hkk] using ih
    · by_cases h2 : k1 = k
      · subst h2
        simp [List.map_cons, jsGet_cons, h1]
      · simpa [List.map_cons, jsGet_cons, h1, h2] using ih

/-- Helper: lookup of the explicitly set member is its new value. -/
theorem jsGet_setField_same (f : List (String × JVal)) (key : String)
    (v : Option JVal) : jsGet (TriageV2.setField f key v) key = v := by
  cases v with
  | none => simpa [TriageV2.setField] using jsGet_filterOut_same f key
  | some x =>
    cases hs : jsGet f key with
    | some w =>
      have : (jsGet f key).isSome = true := by simp [hs]
      simp [TriageV2.setField, this, jsGet_mapSet_same, hs]
    | none =>
      have : (jsGet f key).isSome = false := by simp [hs]
      simp [TriageV2.setField, this, jsGet_append, hs, jsGet]

/-- Helper: setting one member leaves other lookups intact. -/
theorem jsGet_setField_other (f : List (String × JVal)) (key k : String)
    (v : Option JVal) (hk : k ≠ key) :
    jsGet (TriageV2.setField f key v) k = jsGet f k := by
  cases v with
  | none => simpa [TriageV2.setField] using jsGet_filterOut_other f key k hk
  | some x =>
    by_cases hs : (jsGet f key).isSome
    · simp [TriageV2.setField, hs, jsGet_mapSet_other f key k x hk]
    · have hkk : ¬ key = k := fun hcc => hk hcc.symm
      simp [TriageV2.setField, hs, jsGet_append, jsGet, hkk]
      cases hfk : jsGet f k <;> simp

/-- C3 counterexample: the hydration merge does not let the webhook value
win for every field present in both records.  A webhook payload whose slack
object lacks a channel id is hydrated, and the fetched slack object
replaces the webhook one even though both carry the slack field. -/
theorem hydration_merge_not_webhook_wins :
    let webhookIssue : List (String × JVal) :=
      [("id", JVal.str "iss_1"),
       ("slack", JVal.obj [("message_ts", JVal.str "1111.2222")])]
    let fetchedIssue : List (String × JVal) :=
      [("slack", JVal.obj [("channel_id", JVal.str "C052DFWVCG6"),
        ("message_ts", JVal.str "9999.0000")])]
    jsGet (TriageV2.hydrateIssue webhookIssue (some fetchedIssue)) "slack" =
      jsGet fetchedIssue "slack" ∧
    jsGet fetchedIssue "slack" ≠ jsGet webhookIssue "slack" := by
  refine ⟨rfl, ?_⟩
  intro h
  simp [jsGet] at h

/-- C3 amended: when the webhook payload carries a truthy ticket id and no
origin-thread channel id and the secondary fetch succeeds, every field
other than `slack` takes the webhook value when present in the webhook
payload and otherwise the fetched value; for `slack` the fetched object
wins whenever it is present and non-null, with the webhook slack object
used only as its nullish fallback. -/
theorem hydration_merge_amended (fullIssue issue : List (String × JVal))
    (k : String) (hid : TriageV2.hasIssueId issue = true)
    (hnoslack : TriageV2.hasSlackData issue = false) :
    (k ≠ "slack" →
      jsGet (TriageV2.hydrateIssue issue (some fullIssue)) k =
        match jsGet issue k with
        | some v => some v
        | none => jsGet fullIssue k) ∧
    jsGet (TriageV2.hydrateIssue issue (some fullIssue)) "slack" =
      TriageV2.jsNullish (jsGet fullIssue "slack") (jsGet issue "slack") := by
  constructor
  · intro hk
    simp only [TriageV2.hydrateIssue, hid, hnoslack, Bool.not_false,
      Bool.and_self, if_true]
    rw [jsGet_setField_other _ _ _ _ hk, jsGet_jsSpread]
  · simp only [TriageV2.hydrateIssue, hid, hnoslack, Bool.not_false,
      Bool.and_self, if_true]
    rw [jsGet_setField_same]

/-- Witness for the amended C3 theorem: a field present only in the fetched
ticket is filled in from it. -/
theorem hydration_merge_amended_witness :
    jsGet (TriageV2.hydrateIssue [("id", JVal.str "iss_1")]
      (some [("title", JVal.str "Login broken")])) "title" =
      some (JVal.str "Login broken") := by
  have h := (hydration_merge_amended [("title", JVal.str "Login broken")]
    [("id", JVal.str "iss_1")] "title" (by rfl) (by rfl)).1 (by decide)
  exact h.trans (by rfl)

/-- C9 counterexample: a field whose value contains no template markup is
not always retained.  An empty-object field contains no template
substitution anywhere, yet the cleaner removes it. -/
theorem strip_placeholders_drops_empty_object :
    TriageV2.valueContainsTemplate (JVal.obj []) = false ∧
    TriageV2.stripPlaceholders [("metadata", JVal.obj [])] = [] := by
  constructor
  · simp [TriageV2.valueContainsTemplate, TriageV2.fieldsContainTemplate]
  · simp [TriageV2.stripPlaceholders, TriageV2.isTemplatePlaceholder]


/-- Helper: the cleaned object has no placeholder string field at any
nesting depth. -/
theorem strip_objClean (fields : List (String × JVal)) :
    TriageV2.objClean (TriageV2.stripPlaceholders fields) = true := by
  induction fields using TriageV2.stripPlaceholders.induct with
  | case1 => simp [TriageV2.stripPlaceholders, TriageV2.objClean]
  | case2 k v rest hph ih =>
    rw [TriageV2.stripPlaceholders.eq_def]
    simp [hph, ih]
  | case3 k rest nf nested hlen hph ihn ih =>
    rw [TriageV2.stripPlaceholders.eq_def]
    simp only [hph, if_false, Bool.false_eq_true, hlen, if_true]
    rw [TriageV2.objClean.eq_def]
    simp [ihn, ih]
  | case4 k rest nf nested hlen hph ihn ih =>
    rw [TriageV2.stripPlaceholders.eq_def]
    simp [hph, hlen, ih]
  | case5 k v rest hph hobj ih =>
    rw [TriageV2.stripPlaceholders.eq_def]
    cases v with
    | str s =>
      have hs : TriageV2.hasTemplateMatch s.data = false := by
        simpa [TriageV2.isTemplatePlaceholder] using hph
      simp [hph, TriageV2.objClean, hs, ih]
    | obj fs => exact absurd rfl (hobj fs)
    | null => simp [hph, TriageV2.objClean, ih]
    | bool b => simp [hph, TriageV2.objClean, ih]
    | num n => simp [hph, TriageV2.objClean, ih]
    | arr xs => simp [hph, TriageV2.objClean, ih]

/-- Helper: a string field free of template markup survives the cleaning
with its value unchanged. -/
theorem strip_keeps_clean_strings (fields : List (String × JVal))
    (key : String) (s : String)
    (hmem : (key, JVal.str s) ∈ fields)
    (hclean : TriageV2.hasTemplateMatch s.data = false) :
    (key, JVal.str s) ∈ TriageV2.stripPlaceholders fields := by
  induction fields using TriageV2.stripPlaceholders.induct with
  | case1 => simp at hmem
  | case2 k v rest hph ih =>
    rw [TriageV2.stripPlaceholders.eq_def]
    simp only [hph, if_true]
    rcases List.mem_cons.1 hmem with heq | htail
    · obtain ⟨hk, hv⟩ := Prod.mk.injEq .. ▸ heq
      exfalso
      rw [← hv] at hph
      simp [TriageV2.isTemplatePlaceholder, hclean] at hph
    · exact ih htail
  | case3 k rest nf nested hlen hph ihn ih =>
    rw [TriageV2.stripPlaceholders.eq_def]
    simp only [hph, Bool.false_eq_true, if_false, hlen, if_true]
    rcases List.mem_cons.1 hmem with heq | htail
    · simp at heq
    · exact List.mem_cons_of_mem _ (ih htail)
  | case4 k rest nf nested hlen hph ihn ih =>
    rw [TriageV2.stripPlaceholders.eq_def]
    simp only [hph, Bool.false_eq_true, if_false, hlen]
    rcases List.mem_cons.1 hmem with heq | htail
    · simp at heq
    · exact ih htail
  | case5 k v rest hph hobj ih =>
    rw [TriageV2.stripPlaceholders.eq_def]
    simp only [hph, Bool.false_eq_true, if_false]
    rcases List.mem_cons.1 hmem with heq | htail
    · rw [heq]
      cases v with
      | obj fs => exact absurd rfl (hobj fs)
      | str t => exact List.mem_cons_self _ _
      | null => exact List.mem_cons_self _ _
      | bool b => exact List.mem_cons_self _ _
      | num n => exact List.mem_cons_self _ _
      | arr xs => exact List.mem_cons_self _ _
    · exact List.mem_cons_of_mem _ (ih htail)

/-- Helper: every string field of the cleaned object comes unchanged from
the input and is free of template markup. -/
theorem strip_members_from_input (fields : List (String × JVal))
    (key : String) (s : String)
    (hmem : (key, JVal.str s) ∈ TriageV2.stripPlaceholders fields) :
    (key, JVal.str s) ∈ fields ∧
      TriageV2.hasTemplateMatch s.data = false := by
  induction fields using TriageV2.stripPlaceholders.induct with
  | case1 => simp [TriageV2.stripPlaceholders] at hmem
  | case2 k v rest hph ih =>
    rw [TriageV2.stripPlaceholders.eq_def] at hmem
    simp only [hph, if_true] at hmem
    obtain ⟨h1, h2⟩ := ih hmem
    exact ⟨List.mem_cons_of_mem _ h1, h2⟩
  | case3 k rest nf nested hlen hph ihn ih =>
    rw [TriageV2.stripPlaceholders.eq_def] at hmem
    simp only [hph, Bool.false_eq_true, if_false, hlen, if_true] at hmem
    rcases List.mem_cons.1 hmem with heq | htail
    · simp at heq
    · obtain ⟨h1, h2⟩ := ih htail
      exact ⟨List.mem_cons_of_mem _ h1, h2⟩
  | case4 k rest nf nested hlen hph ihn ih =>
    rw [TriageV2.stripPlaceholders.eq_def] at hmem
    simp only [hph, Bool.false_eq_true, if_false, hlen] at hmem
    obtain ⟨h1, h2⟩ := ih hmem
    exact ⟨List.mem_cons_of_mem _ h1, h2⟩
  | case5 k v rest hph hobj ih =>
    rw [TriageV2.stripPlaceholders.eq_def] at hmem
    simp only [hph, Bool.false_eq_true, if_false] at hmem
    rcases List.mem_cons.1 hmem with heq | htail
    · refine ⟨by rw [heq]; exact List.mem_cons_self _ _, ?_⟩
      obtain ⟨hk, hv⟩ := Prod.mk.injEq .. ▸ heq
      rw [← hv] at hph
      simpa [TriageV2.isTemplatePlaceholder] using hph
    · obtain ⟨h1, h2⟩ := ih htail
      exact ⟨List.mem_cons_of_mem _ h1, h2⟩

/-- C9 amended: before the context is built every string-valued field at any
nesting depth whose value contains unresolved template-substitution markup
is removed (the cleaned object is fully free of such fields), and every
string-valued field without such markup is retained unchanged; however an
object-valued field whose cleaned content is empty — in particular an empty
object, which contains no markup at all — is removed as well, and fields of
the cleaned object are exactly fields of the input. -/
theorem strip_placeholders_amended (fields : List (String × JVal))
    (key : String) (s : String) :
    TriageV2.objClean (TriageV2.stripPlaceholders fields) = true ∧
    ((key, JVal.str s) ∈ fields →
      TriageV2.hasTemplateMatch s.data = false →
      (key, JVal.str s) ∈ TriageV2.stripPlaceholders fields) ∧
    ((key, JVal.str s) ∈ TriageV2.stripPlaceholders fields →
      (key, JVal.str s) ∈ fields ∧
        TriageV2.hasTemplateMatch s.data = false) :=
  ⟨strip_objClean fields,
   fun hmem hclean => strip_keeps_clean_strings fields key s hmem hclean,
   fun hmem => strip_members_from_input fields key s hmem⟩

/-- Witness for the amended C9 theorem: the value "actual title" is kept
while a placeholder value is stripped. -/
theorem strip_placeholders_amended_witness :
    ("title", JVal.str "actual title") ∈ TriageV2.stripPlaceholders
      [("title", JVal.str "actual title"),
       ("body", JVal.str "\x7b\x7bissue.body\x7d\x7d")] :=
  (strip_placeholders_amended
      [("title", JVal.str "actual title"),
       ("body", JVal.str "\x7b\x7bissue.body\x7d\x7d")]
      "title" "actual title").2.1 (by simp) (by decide)

/-- Helper: with a truthy customer identifier, the description is the claim
side em-dash joining of identifier and trimmed title. -/
theorem issueDescription_of_identifier (issue : Pylon.PylonIssue)
    (opts : Reminder.FormatOptions) (ident : String)
    (hident : Reminder.customerIdentifier issue opts = some ident)
    (hne : ident ≠ "") :
    Reminder.issueDescription issue opts =
      Reminder.claimDescription (some ident) issue.title := by
  rw [Reminder.issueDescription, Reminder.claimDescription, hident]
  by_cases ht : issue.title.trim = "" <;>
    simp [Reminder.filterTruthy, hne, ht]

/-- Helper: with no truthy customer identifier, the description is the claim
side rendering with the slot omitted. -/
theorem issueDescription_of_no_identifier (issue : Pylon.PylonIssue)
    (opts : Reminder.FormatOptions)
    (hident : Reminder.customerIdentifier issue opts = none ∨
      Reminder.customerIdentifier issue opts = some "") :
    Reminder.issueDescription issue opts =
      Reminder.claimDescription none issue.title := by
  rw [Reminder.issueDescription, Reminder.claimDescription]
  rcases hident with h | h <;> rw [h] <;>
    by_cases ht : issue.title.trim = "" <;>
      simp [Reminder.filterTruthy, ht]

/-- Helper: when no account resolves, the account slot of the identifier is
falsy. -/
theorem accountNameOf_none (issue : Pylon.PylonIssue)
    (opts : Reminder.FormatOptions)
    (h : ∀ acc, issue.account = some acc → opts.accountNames acc.id = none) :
    Reminder.accountNameOf issue opts = none := by
  cases hacc : issue.account with
  | none => simp [Reminder.accountNameOf, hacc]
  | some acc =>
    by_cases hid : acc.id = ""
    · simp [Reminder.accountNameOf, hacc, hid]
    · simp [Reminder.accountNameOf, hacc, hid, h acc hacc]

/-- Helper: when no channel resolves, the channel slot of the identifier is
falsy. -/
theorem channelTagOf_none (issue : Pylon.PylonIssue)
    (opts : Reminder.FormatOptions)
    (h : ∀ sl, issue.slack = some sl → opts.channelNames sl.channel_id = none) :
    Reminder.channelTagOf issue opts = none := by
  cases hsl : issue.slack with
  | none => simp [Reminder.channelTagOf, hsl]
  | some sl =>
    by_cases hid : sl.channel_id = ""
    · simp [Reminder.channelTagOf, hsl, hid]
    · simp [Reminder.channelTagOf, hsl, hid, h sl hsl]

/-- Helper: a string with the hash prefix is never empty. -/
theorem hash_append_ne_empty (cn : String) : "#" ++ cn ≠ "" := by
  intro h
  have hlen := congrArg String.length h
  simp [String.length_append] at hlen
  exact absurd hlen.1 (by decide)

/-- C8: every digest ticket line is the index followed by the description,
links and assignee mention, and the customer-identifier slot of the
description follows the priority order of the spec: the resolved account
name when the account id is in the resolved map, else hash and the resolved
origin-channel name, else the non-empty domain portion of the requester
email, else the slot is omitted; the trimmed non-empty title is joined to
the identifier with an em dash.  The hypotheses record the invariants of
the resolved maps built by the resolution pipeline: no empty keys and no
empty names. -/
theorem digest_line_customer_identifier (issue : Pylon.PylonIssue)
    (index : Nat) (opts : Reminder.FormatOptions)
    (hA0 : opts.accountNames "" = none)
    (hAne : ∀ k v, opts.accountNames k = some v → v ≠ "")
    (hC0 : opts.channelNames "" = none)
    (hCne : ∀ k v, opts.channelNames k = some v → v ≠ "") :
    Reminder.formatIssue issue index opts =
      "  " ++ toString (index + 1) ++ "." ++ Reminder.issueDescription issue opts
        ++ Reminder.linksPart issue ++ Reminder.assigneePart issue opts ∧
    (∀ acc name, issue.account = some acc →
      opts.accountNames acc.id = some name →
      Reminder.issueDescription issue opts =
        Reminder.claimDescription (some name) issue.title) ∧
    ((∀ acc, issue.account = some acc → opts.accountNames acc.id = none) →
      ∀ sl cn, issue.slack = some sl →
      opts.channelNames sl.channel_id = some cn →
      Reminder.issueDescription issue opts =
        Reminder.claimDescription (some ("#" ++ cn)) issue.title) ∧
    ((∀ acc, issue.account = some acc → opts.accountNames acc.id = none) →
      (∀ sl, issue.slack = some sl → opts.channelNames sl.channel_id = none) →
      ∀ r d, issue.requester = some r → Reminder.emailDomain r.email = some d →
      d ≠ "" →
      Reminder.issueDescription issue opts =
        Reminder.claimDescription (some d) issue.title) ∧
    ((∀ acc, issue.account = some acc → opts.accountNames acc.id = none) →
      (∀ sl, issue.slack = some sl → opts.channelNames sl.channel_id = none) →
      (∀ r, issue.requester = some r →
        Reminder.emailDomain r.email = none ∨
        Reminder.emailDomain r.email = some "") →
      Reminder.issueDescription issue opts =
        Reminder.claimDescription none issue.title) := by
  refine ⟨rfl, ?_, ?_, ?_, ?_⟩
  · intro acc name hacc hname
    have hid : acc.id ≠ "" := by
      intro h0
      rw [h0, hA0] at hname
      cases hname
    have hne : name ≠ "" := hAne _ _ hname
    have hca : Reminder.accountNameOf issue opts = some name := by
      simp [Reminder.accountNameOf, hacc, hid, hname]
    have hci : Reminder.customerIdentifier issue opts = some name := by
      simp [Reminder.customerIdentifier, hca, Reminder.jsOrS, hne]
    exact issueDescription_of_identifier issue opts name hci hne
  · intro hnoacc sl cn hsl hcn
    have hid : sl.channel_id ≠ "" := by
      intro h0
      rw [h0, hC0] at hcn
      cases hcn
    have hcne : cn ≠ "" := hCne _ _ hcn
    have hct : Reminder.channelTagOf issue opts = some ("#" ++ cn) := by
      simp [Reminder.channelTagOf, hsl, hid, hcn, hcne]
    have hci : Reminder.customerIdentifier issue opts = some ("#" ++ cn) := by
      simp [Reminder.customerIdentifier, accountNameOf_none issue opts hnoacc,
        hct, Reminder.jsOrS, hash_append_ne_empty cn]
    exact issueDescription_of_identifier issue opts _ hci
      (hash_append_ne_empty cn)
  · intro hnoacc hnoch r d hr hd hdne
    have hci : Reminder.customerIdentifier issue opts = some d := by
      simp [Reminder.customerIdentifier, accountNameOf_none issue opts hnoacc,
        channelTagOf_none issue opts hnoch, Reminder.jsOrS,
        Reminder.requesterDomainOf, hr, hd]
    exact issueDescription_of_identifier issue opts d hci hdne
  · intro hnoacc hnoch hnodom
    have hbase : Reminder.customerIdentifier issue opts =
        Reminder.requesterDomainOf issue := by
      simp [Reminder.customerIdentifier, accountNameOf_none issue opts hnoacc,
        channelTagOf_none issue opts hnoch, Reminder.jsOrS]
    cases hr : issue.requester with
    | none =>
      refine issueDescription_of_no_identifier issue opts (Or.inl ?_)
      rw [hbase]
      simp [Reminder.requesterDomainOf, hr]
    | some r =>
      rcases hnodom r hr with hdom | hdom
      · refine issueDescription_of_no_identifier issue opts (Or.inl ?_)
        rw [hbase]
        simp [Reminder.requesterDomainOf, hr, hdom]
      · refine issueDescription_of_no_identifier issue opts (Or.inr ?_)
        rw [hbase]
        simp [Reminder.requesterDomainOf, hr, hdom]

/-- Witness for the C8 theorem: a ticket whose account id resolves to a
name renders that name in the identifier slot. -/
theorem digest_line_customer_identifier_witness :
    Reminder.issueDescription
      { id := "iss_1", state := "new", title := "Login broken",
        account := some { id := "acc_1" } }
      { accountNames := fun k => if k = "acc_1" then some "Acme" else none } =
      Reminder.claimDescription (some "Acme") "Login broken" := by
  have h := (digest_line_customer_identifier
    { id := "iss_1", state := "new", title := "Login broken",
      account := some { id := "acc_1" } } 0
    { accountNames := fun k => if k = "acc_1" then some "Acme" else none }
    (by decide)
    (by
      intro k v hkv
      by_cases hk : k = "acc_1"
      · simp [hk] at hkv
        rw [← hkv]
        decide
      · simp [hk] at hkv)
    rfl
    (by intro k v hkv; cases hkv)).2.1
    { id := "acc_1" } "Acme" rfl (by decide)
  exact h
